import Mathlib

/-!
# VR interop adapter (`L4D2VR/d3d9_vr.cpp`)

A shallow embedding of the `D3D9VR` adapter class.  Nullable C++ pointers are
`Option` values holding the current contents of the pointee, and every method
returns the new contents of whatever it may have written.  A method that
dereferences a null pointer ends in `Except.error`, carrying the state of
the emulation layer reached at that point.

The classes of the emulation layer the adapter calls into (`D3D9DeviceEx`,
`D3D9CommonTexture`, `DxvkImage`, ...) are defined in the dxvk layer; the parts
of them the adapter touches are modelled from the specification and marked as
such.
-/

namespace L4D2VR

/-! ## Constants of the consumed headers -/

/-- A 32-bit `HRESULT` status code. -/
abbrev HRESULT := Nat

/-- The success status (`S_OK`). -/
def D3D_OK : HRESULT := 0

/-- The invalid-argument status, `MAKE_D3DHRESULT(2156)`. -/
def D3DERR_INVALIDCALL : HRESULT := 0x8876086C

/-- The `D3DMULTISAMPLE_TYPE` value of a single-sample surface. -/
def D3DMULTISAMPLE_NONE : Nat := 0

/-- The `VkSampleCountFlagBits` value of a single-sample image. -/
def VK_SAMPLE_COUNT_1_BIT : Nat := 1

/-- The `VkImageLayout` value of the transfer-source-optimal layout. -/
def VK_IMAGE_LAYOUT_TRANSFER_SRC_OPTIMAL : Nat := 6

/-- The colour bit of `VkImageAspectFlags`. -/
def VK_IMAGE_ASPECT_COLOR_BIT : Nat := 1

/-- The read-only map flag. -/
def D3DLOCK_READONLY : Nat := 0x10

/-- The mono (non-stereo) back-buffer type. -/
def D3DBACKBUFFER_TYPE_MONO : Nat := 0

/-- The automatic colour-space tag of `vr::EColorSpace`. -/
def ColorSpace_Auto : Nat := 0

/-- The Vulkan tag of `vr::ETextureType`. -/
def TextureType_Vulkan : Nat := 4

/-- The sequence number `DxvkCsThread::SynchronizeAll`, all ones in 64 bits. -/
def SynchronizeAll : Nat := 2 ^ 64 - 1

/-! ## Data model -/

/-- The fields of `DxvkImageCreateInfo` the adapter reads. -/
structure DxvkImageCreateInfo where
  sampleCount : Nat
  mipLevels : Nat
  numLayers : Nat
  layout : Nat
deriving DecidableEq, Repr

/-- A GPU image: its native handle (`handle()`) and its properties (`info()`). -/
structure DxvkImage where
  handle : Nat
  info : DxvkImageCreateInfo
deriving DecidableEq, Repr

/-- One queue of a device. -/
structure DxvkDeviceQueue where
  queueHandle : Nat
  queueIndex : Nat
deriving DecidableEq, Repr

/-- The queues of a device (`queues()`). -/
structure DxvkDeviceQueueSet where
  graphics : DxvkDeviceQueue
deriving DecidableEq, Repr

/-- The handles a `DxvkDevice` exposes: `handle()`, `adapter()->handle()`,
`instance()->handle()` and `queues()`. -/
structure DxvkDevice where
  handle : Nat
  adapterHandle : Nat
  instanceHandle : Nat
  queues : DxvkDeviceQueueSet
deriving DecidableEq, Repr

/-- The fields of the texture description (`Desc()`) the adapter reads. -/
structure D3D9_COMMON_TEXTURE_DESC where
  Width : Nat
  Height : Nat
  MultiSample : Nat
deriving DecidableEq, Repr

/-- The format mapping of a texture (`GetFormatMapping()`). -/
structure D3D9_VK_FORMAT_MAPPING where
  FormatColor : Nat
deriving DecidableEq, Repr

/-- The `D3D9CommonTexture` behind a surface: its description, its primary
image (`GetImage()`), the resolve image once one exists, its format mapping,
its owning device (`Device()->GetDXVKDevice()`) and the sequence number of each
subresource (`GetMappingBufferSequenceNumber`). -/
structure D3D9CommonTexture where
  m_desc : D3D9_COMMON_TEXTURE_DESC
  m_image : DxvkImage
  m_resolveImage : Option DxvkImage
  m_mapping : D3D9_VK_FORMAT_MAPPING
  m_device : DxvkDevice
  m_seqs : Nat → Nat

/-- A surface, seen through `GetCommonTexture()`. -/
structure D3D9Surface where
  m_texture : D3D9CommonTexture

/-- The output descriptor of `d3d9_vr.h`. -/
structure D3D9_TEXTURE_VR_DESC where
  Image : Nat
  Device : Nat
  PhysicalDevice : Nat
  Instance : Nat
  Queue : Nat
  QueueFamilyIndex : Nat
  Width : Nat
  Height : Nat
  Format : Nat
  SampleCount : Nat
deriving DecidableEq, Repr

/-- A `VkImageSubresourceRange`, fields in declaration order. -/
structure VkImageSubresourceRange where
  aspectMask : Nat
  baseMipLevel : Nat
  levelCount : Nat
  baseArrayLayer : Nat
  layerCount : Nat
deriving DecidableEq, Repr

/-- A call the adapter makes into the emulation layer that has an effect
there (plain accessors are not recorded). -/
inductive Call where
  | GetResolveImage (primary : Nat)
  | TransformImage (image : Nat) (subresources : VkImageSubresourceRange)
      (OldLayout NewLayout : Nat)
  | WaitForResource (image : Nat) (SequenceNumber MapFlags : Nat)
  | LockDevice
  | Flush
  | SynchronizeCsThread (SequenceNumber : Nat)
  | waitForIdle
  | GetBackBuffer (iSwapChain iBackBuffer BackBufferType : Nat)
deriving DecidableEq, Repr

/-- The part of the emulation layer that is not an object the adapter is
handed: the record of the calls made into it so far, oldest first, and the
next unused image handle of its resource manager. -/
structure Env where
  calls : List Call
  nextHandle : Nat
deriving DecidableEq, Repr

/-- Appends one call to the record. -/
def Env.log (env : Env) (c : Call) : Env :=
  { env with calls := env.calls ++ [c] }

/-- Modelled from the spec: the exclusive-access token `D3D9DeviceLock` that
the device's `lock()` primitive returns (its class is defined in the dxvk
layer).  `m_mutex` is the serialization primitive the token holds, `none` for the
default-constructed token `D3D9DeviceLock()`, which holds nothing. -/
structure D3D9DeviceLock where
  m_mutex : Option Nat
deriving DecidableEq, Repr

/-- The token `dxvk::D3D9DeviceLock()`. -/
def D3D9DeviceLock.empty : D3D9DeviceLock := ⟨none⟩

/-- Modelled from the spec: the device `D3D9DeviceEx` (its class is defined
in the dxvk layer).  It has the handles of its `DxvkDevice`, its serialization
primitive (the "device lock"), and three stages of work: commands recorded and
not yet flushed, commands buffered in its internal queue, and work in flight
on the GPU.  `m_retired` is the greatest sequence number reported retired.
`m_backBuffers` is what `GetBackBuffer` answers for a swap chain, a
back-buffer index and a type: a status and the surface pointer it leaves in
its output argument. -/
structure D3D9DeviceEx where
  m_dxvkDevice : DxvkDevice
  m_multithread : Nat
  m_recorded : Nat
  m_buffered : Nat
  m_inFlight : Nat
  m_retired : Nat
  m_backBuffers : Nat → Nat → Nat → HRESULT × Option D3D9Surface

/-- The outstanding-work counter of a device: all work not yet retired. -/
def D3D9DeviceEx.outstandingWork (dev : D3D9DeviceEx) : Nat :=
  dev.m_recorded + dev.m_buffered + dev.m_inFlight

/-- The adapter class `D3D9VR`: a pointer to its device and the lock slot. -/
structure D3D9VR where
  m_device : Option D3D9DeviceEx
  m_lock : D3D9DeviceLock

/-- Where the `handle` pointer of a `vr::Texture_t` points. -/
inductive TextureHandle where
  | null
  | vulkanData
deriving DecidableEq, Repr

/-- The `vr::VRVulkanTextureData_t` of the headset runtime, fields in
declaration order. -/
structure VRVulkanTextureData_t where
  m_nImage : Nat
  m_pDevice : Nat
  m_pPhysicalDevice : Nat
  m_pInstance : Nat
  m_pQueue : Nat
  m_nQueueFamilyIndex : Nat
  m_nWidth : Nat
  m_nHeight : Nat
  m_nFormat : Nat
  m_nSampleCount : Nat
deriving DecidableEq, Repr

/-- The `vr::Texture_t` of the headset runtime. -/
structure Texture_t where
  handle : TextureHandle
  eType : Nat
  eColorSpace : Nat
deriving DecidableEq, Repr

/-- The caller-supplied `SharedTextureHolder`. -/
structure SharedTextureHolder where
  m_VulkanData : VRVulkanTextureData_t
  m_VRTexture : Texture_t
deriving DecidableEq, Repr

/-! ## The emulation layer, as far as the adapter calls into it -/

/-- The texture of a surface. -/
def D3D9Surface.GetCommonTexture (surface : D3D9Surface) : D3D9CommonTexture :=
  surface.m_texture

/-- The description of a texture. -/
def D3D9CommonTexture.Desc (tex : D3D9CommonTexture) : D3D9_COMMON_TEXTURE_DESC :=
  tex.m_desc

/-- The primary image of a texture. -/
def D3D9CommonTexture.GetImage (tex : D3D9CommonTexture) : DxvkImage :=
  tex.m_image

/-- The `DxvkDevice` of the device that owns a texture. -/
def D3D9CommonTexture.Device (tex : D3D9CommonTexture) : DxvkDevice :=
  tex.m_device

/-- The format mapping of a texture. -/
def D3D9CommonTexture.GetFormatMapping (tex : D3D9CommonTexture) :
    D3D9_VK_FORMAT_MAPPING :=
  tex.m_mapping

/-- The sequence number recorded for one subresource of a texture. -/
def D3D9CommonTexture.GetMappingBufferSequenceNumber (tex : D3D9CommonTexture)
    (Subresource : Nat) : Nat :=
  tex.m_seqs Subresource

/-- The images a texture references: the primary one and, once it exists,
the resolve image. -/
def D3D9CommonTexture.images (tex : D3D9CommonTexture) : List DxvkImage :=
  tex.m_image :: tex.m_resolveImage.toList

/-- Modelled from the spec: `D3D9CommonTexture::GetResolveImage` (defined in
the dxvk layer).  The resolve image is "lazily created and reused": the first call
creates a single-sample image with otherwise the properties of the primary
image, under an unused handle of the resource manager, and keeps it in the
texture; every later call returns the image kept.  Returns the image, the
texture and the emulation layer after the call. -/
def D3D9CommonTexture.GetResolveImage (tex : D3D9CommonTexture) (env : Env) :
    DxvkImage × D3D9CommonTexture × Env :=
  let env1 := env.log (Call.GetResolveImage tex.m_image.handle)
  match tex.m_resolveImage with
  | some image => (image, tex, env1)
  | none =>
    let image : DxvkImage :=
      { handle := env1.nextHandle
        info := { tex.m_image.info with sampleCount := VK_SAMPLE_COUNT_1_BIT } }
    (image, { tex with m_resolveImage := some image },
      { env1 with nextHandle := env1.nextHandle + 1 })

/-- Whether a subresource range takes in every mip level and array layer of
the colour aspect of an image. -/
def VkImageSubresourceRange.coversAll (r : VkImageSubresourceRange)
    (info : DxvkImageCreateInfo) : Bool :=
  r.aspectMask == VK_IMAGE_ASPECT_COLOR_BIT &&
  r.baseMipLevel == 0 && decide (info.mipLevels ≤ r.levelCount) &&
  r.baseArrayLayer == 0 && decide (info.numLayers ≤ r.layerCount)

/-- Modelled from the spec: `D3D9DeviceEx::TransformImage` (defined in the dxvk layer),
the `transitionLayout(range, from, to)` of the specification.  It submits one
layout-transition barrier for the primary image of the texture; the image is
in the new layout afterwards when the range took in all of its mip levels and
array layers, and its recorded layout stays as it was otherwise. -/
def D3D9DeviceEx.TransformImage (dev : D3D9DeviceEx) (env : Env)
    (pResource : D3D9CommonTexture) (pSubresources : VkImageSubresourceRange)
    (OldLayout NewLayout : Nat) : D3D9DeviceEx × Env × D3D9CommonTexture :=
  let image := pResource.GetImage
  let env1 := env.log
    (Call.TransformImage image.handle pSubresources OldLayout NewLayout)
  let image1 : DxvkImage :=
    if pSubresources.coversAll image.info then
      { image with info := { image.info with layout := NewLayout } }
    else image
  (dev, env1, { pResource with m_image := image1 })

/-- Modelled from the spec: `D3D9DeviceEx::WaitForResource` (defined in the dxvk layer),
the `waitOnSequence(index, accessKind)` of the specification.  It blocks until
the device reports the sequence number retired, so on return the greatest
retired sequence number is at least the one waited for. -/
def D3D9DeviceEx.WaitForResource (dev : D3D9DeviceEx) (env : Env)
    (Resource : DxvkImage) (SequenceNumber MapFlags : Nat) : D3D9DeviceEx × Env :=
  ({ dev with m_retired := max dev.m_retired SequenceNumber },
    env.log (Call.WaitForResource Resource.handle SequenceNumber MapFlags))

/-- Modelled from the spec: `D3D9DeviceEx::LockDevice` (defined in the dxvk layer), the
`lock()` primitive "returning an exclusive-access token": the token holds the
serialization primitive of the device. -/
def D3D9DeviceEx.LockDevice (dev : D3D9DeviceEx) (env : Env) : D3D9DeviceLock × Env :=
  (⟨some dev.m_multithread⟩, env.log Call.LockDevice)

/-- Modelled from the spec: `D3D9DeviceEx::Flush` (defined in the dxvk layer), "flush all
pending command recording": the recorded commands join the internal queue of
buffered commands. -/
def D3D9DeviceEx.Flush (dev : D3D9DeviceEx) (env : Env) : D3D9DeviceEx × Env :=
  ({ dev with m_recorded := 0, m_buffered := dev.m_buffered + dev.m_recorded },
    env.log Call.Flush)

/-- Modelled from the spec: `D3D9DeviceEx::SynchronizeCsThread` (defined in
the dxvk layer).  With `SynchronizeAll` it forces "an internal queue of buffered
commands to fully drain": the buffered commands become work in flight on the
GPU.  With another sequence number nothing is known to have drained. -/
def D3D9DeviceEx.SynchronizeCsThread (dev : D3D9DeviceEx) (env : Env)
    (SequenceNumber : Nat) : D3D9DeviceEx × Env :=
  (if SequenceNumber = SynchronizeAll then
      { dev with m_buffered := 0, m_inFlight := dev.m_inFlight + dev.m_buffered }
    else dev,
    env.log (Call.SynchronizeCsThread SequenceNumber))

/-- Modelled from the spec: `DxvkDevice::waitForIdle` on the device's
`GetDXVKDevice()` (defined in the dxvk layer): it blocks "until the Device reports no
outstanding GPU work", so nothing is in flight on the GPU on return. -/
def D3D9DeviceEx.waitForIdle (dev : D3D9DeviceEx) (env : Env) : D3D9DeviceEx × Env :=
  ({ dev with m_inFlight := 0 }, env.log Call.waitForIdle)

/-- Modelled from the spec: `D3D9DeviceEx::GetBackBuffer` (defined in the dxvk layer):
the status of the fetch and the surface pointer left in `ppBackBuffer`. -/
def D3D9DeviceEx.GetBackBuffer (dev : D3D9DeviceEx) (env : Env)
    (iSwapChain iBackBuffer BackBufferType : Nat) :
    HRESULT × Option D3D9Surface × Env :=
  ((dev.m_backBuffers iSwapChain iBackBuffer BackBufferType).1,
    (dev.m_backBuffers iSwapChain iBackBuffer BackBufferType).2,
    env.log (Call.GetBackBuffer iSwapChain iBackBuffer BackBufferType))

/-- The device once the surface behind one of its back buffers has changed
(the surface is an object of the device, which the adapter reached through a
pointer). -/
def D3D9DeviceEx.withBackBuffer (dev : D3D9DeviceEx)
    (iSwapChain iBackBuffer BackBufferType : Nat) (surface : Option D3D9Surface) :
    D3D9DeviceEx :=
  { dev with
    m_backBuffers := fun i j t =>
      if i = iSwapChain ∧ j = iBackBuffer ∧ t = BackBufferType then
        ((dev.m_backBuffers i j t).1, surface)
      else dev.m_backBuffers i j t }

/-! ## The adapter `D3D9VR` -/

/-- What `GetVRDesc` leaves behind: its status, the emulation layer, and the
contents of the surface and of the output descriptor after the call. -/
structure GetVRDescResult where
  hr : HRESULT
  env : Env
  pSurface : Option D3D9Surface
  pDesc : Option D3D9_TEXTURE_VR_DESC

/-- The method `D3D9VR::GetVRDesc`.  The casts `uint64_t(image->handle())` and
`uint32_t(image->info().sampleCount)` are between types of the same width and
keep the value. -/
def D3D9VR.GetVRDesc (_self : D3D9VR) (env : Env) (pSurface : Option D3D9Surface)
    (pDesc : Option D3D9_TEXTURE_VR_DESC) : GetVRDescResult :=
  match pSurface, pDesc with
  | some surface, some _ =>
    let tex := surface.GetCommonTexture
    let desc := tex.Desc
    let sel : DxvkImage × D3D9CommonTexture × Env :=
      if desc.MultiSample ≠ D3DMULTISAMPLE_NONE then tex.GetResolveImage env
      else (tex.GetImage, tex, env)
    let image := sel.1
    let device := tex.Device
    { hr := D3D_OK
      env := sel.2.2
      pSurface := some { surface with m_texture := sel.2.1 }
      pDesc := some
        { Image := image.handle
          Device := device.handle
          PhysicalDevice := device.adapterHandle
          Instance := device.instanceHandle
          Queue := device.queues.graphics.queueHandle
          QueueFamilyIndex := device.queues.graphics.queueIndex
          Width := desc.Width
          Height := desc.Height
          Format := tex.GetFormatMapping.FormatColor
          SampleCount := image.info.sampleCount } }
  | _, _ => { hr := D3DERR_INVALIDCALL, env := env, pSurface := pSurface, pDesc := pDesc }

/-- What a method that may change the adapter leaves behind: its status, the
adapter and the emulation layer. -/
structure MethodResult where
  hr : HRESULT
  self : D3D9VR
  env : Env

/-- What `TransferSurface` leaves behind: as `MethodResult`, and the contents
of the surface after the call. -/
structure TransferSurfaceResult extends MethodResult where
  pSurface : Option D3D9Surface

/-- The method `D3D9VR::TransferSurface`; `waitResourceIdle` is a `BOOL`. -/
def D3D9VR.TransferSurface (self : D3D9VR) (env : Env) (pSurface : Option D3D9Surface)
    (waitResourceIdle : Int) : Except Env TransferSurfaceResult :=
  match pSurface with
  | none => .ok { hr := D3DERR_INVALIDCALL, self := self, env := env, pSurface := none }
  | some surface =>
    let tex := surface.GetCommonTexture
    let image := tex.GetImage
    let subresources : VkImageSubresourceRange :=
      { aspectMask := VK_IMAGE_ASPECT_COLOR_BIT
        baseMipLevel := 0
        levelCount := image.info.mipLevels
        baseArrayLayer := 0
        layerCount := image.info.numLayers }
    match self.m_device with
    | none => .error env
    | some dev =>
      let t := dev.TransformImage env tex subresources image.info.layout
        VK_IMAGE_LAYOUT_TRANSFER_SRC_OPTIMAL
      let w : D3D9DeviceEx × Env :=
        if waitResourceIdle ≠ 0 then
          t.1.WaitForResource t.2.1 t.2.2.GetImage
            (t.2.2.GetMappingBufferSequenceNumber 0) D3DLOCK_READONLY
        else (t.1, t.2.1)
      .ok { hr := D3D_OK
            self := { self with m_device := some w.1 }
            env := w.2
            pSurface := some { surface with m_texture := t.2.2 } }

/-- The method `D3D9VR::LockDevice`. -/
def D3D9VR.LockDevice (self : D3D9VR) (env : Env) : Except Env MethodResult :=
  match self.m_device with
  | none => .error env
  | some dev =>
    let l := dev.LockDevice env
    .ok { hr := D3D_OK, self := { self with m_lock := l.1 }, env := l.2 }

/-- The method `D3D9VR::UnlockDevice`. -/
def D3D9VR.UnlockDevice (self : D3D9VR) (env : Env) : MethodResult :=
  { hr := D3D_OK, self := { self with m_lock := D3D9DeviceLock.empty }, env := env }

/-- The method `D3D9VR::WaitDeviceIdle`. -/
def D3D9VR.WaitDeviceIdle (self : D3D9VR) (env : Env) : Except Env MethodResult :=
  match self.m_device with
  | none => .error env
  | some dev =>
    let f := dev.Flush env
    let s := f.1.SynchronizeCsThread f.2 SynchronizeAll
    let i := s.1.waitForIdle s.2
    .ok { hr := D3D_OK, self := { self with m_device := some i.1 }, env := i.2 }

/-- The bytes `memcpy` moves from a `D3D9_TEXTURE_VR_DESC` into a
`vr::VRVulkanTextureData_t`: the two structures have the same fields in the
same order, so each field lands in the field at its position. -/
def memcpyVulkanData (textureDesc : D3D9_TEXTURE_VR_DESC) : VRVulkanTextureData_t :=
  { m_nImage := textureDesc.Image
    m_pDevice := textureDesc.Device
    m_pPhysicalDevice := textureDesc.PhysicalDevice
    m_pInstance := textureDesc.Instance
    m_pQueue := textureDesc.Queue
    m_nQueueFamilyIndex := textureDesc.QueueFamilyIndex
    m_nWidth := textureDesc.Width
    m_nHeight := textureDesc.Height
    m_nFormat := textureDesc.Format
    m_nSampleCount := textureDesc.SampleCount }

/-- What `GetBackBufferData` leaves behind: as `MethodResult`, and the
contents of the output holder after the call. -/
structure GetBackBufferDataResult extends MethodResult where
  backBufferData : Option SharedTextureHolder

/-- The method `D3D9VR::GetBackBufferData`.  `textureDesc` is declared without
an initialiser: `uninit` stands for what the stack holds there on entry.  The
local `vulkanData`, zeroed and never read, is left out. -/
def D3D9VR.GetBackBufferData (self : D3D9VR) (env : Env)
    (backBufferData : Option SharedTextureHolder) (uninit : D3D9_TEXTURE_VR_DESC) :
    Except Env GetBackBufferDataResult :=
  match self.m_device with
  | none => .error env
  | some dev =>
    let b := dev.GetBackBuffer env 0 0 D3DBACKBUFFER_TYPE_MONO
    let res := b.1
    let backBufferSurface := b.2.1
    let g := self.GetVRDesc b.2.2 backBufferSurface (some uninit)
    match backBufferData, g.pDesc with
    | some holder, some textureDesc =>
      .ok { hr := res
            self := { self with
              m_device := some (dev.withBackBuffer 0 0 D3DBACKBUFFER_TYPE_MONO g.pSurface) }
            env := g.env
            backBufferData := some
              { holder with
                m_VulkanData := memcpyVulkanData textureDesc
                m_VRTexture :=
                  { handle := TextureHandle.vulkanData
                    eColorSpace := ColorSpace_Auto
                    eType := TextureType_Vulkan } } }
    | _, _ => .error g.env

/-- The function `Direct3DCreateVRImpl`: its status and the contents of
`*pInterface` after the call (`none` for a null `pInterface`). -/
def Direct3DCreateVRImpl (pDevice : Option D3D9DeviceEx)
    (pInterface : Option (Option D3D9VR)) : HRESULT × Option (Option D3D9VR) :=
  match pInterface with
  | none => (D3DERR_INVALIDCALL, none)
  | some _ => (D3D_OK, some (some { m_device := pDevice, m_lock := D3D9DeviceLock.empty }))

/-! ## Sequences of calls on one adapter -/

/-- One call of a method of the adapter, with its arguments. -/
inductive Op where
  | GetVRDesc (pSurface : Option D3D9Surface) (pDesc : Option D3D9_TEXTURE_VR_DESC)
  | TransferSurface (pSurface : Option D3D9Surface) (waitResourceIdle : Int)
  | LockDevice
  | UnlockDevice
  | WaitDeviceIdle
  | GetBackBufferData (backBufferData : Option SharedTextureHolder)
      (uninit : D3D9_TEXTURE_VR_DESC)

/-- Whether a call is `UnlockDevice`. -/
def Op.isUnlock : Op → Bool
  | Op.UnlockDevice => true
  | _ => false

/-- Whether a call passes every pointer the method dereferences without a
check (the output holder of `GetBackBufferData`). -/
def Op.argsValid : Op → Bool
  | Op.GetBackBufferData none _ => false
  | _ => true

/-- The adapter and the emulation layer after one call. -/
def D3D9VR.call (self : D3D9VR) (env : Env) : Op → Except Env (D3D9VR × Env)
  | Op.GetVRDesc pSurface pDesc => .ok (self, (self.GetVRDesc env pSurface pDesc).env)
  | Op.TransferSurface pSurface waitResourceIdle =>
    match self.TransferSurface env pSurface waitResourceIdle with
    | .ok r => .ok (r.self, r.env)
    | .error e => .error e
  | Op.LockDevice =>
    match self.LockDevice env with
    | .ok r => .ok (r.self, r.env)
    | .error e => .error e
  | Op.UnlockDevice => .ok ((self.UnlockDevice env).self, (self.UnlockDevice env).env)
  | Op.WaitDeviceIdle =>
    match self.WaitDeviceIdle env with
    | .ok r => .ok (r.self, r.env)
    | .error e => .error e
  | Op.GetBackBufferData backBufferData uninit =>
    match self.GetBackBufferData env backBufferData uninit with
    | .ok r => .ok (r.self, r.env)
    | .error e => .error e

/-- The adapter and the emulation layer after a sequence of calls, first
call first. -/
def D3D9VR.run (self : D3D9VR) (env : Env) : List Op → Except Env (D3D9VR × Env)
  | [] => .ok (self, env)
  | op :: ops =>
    match self.call env op with
    | .ok s => s.1.run s.2 ops
    | .error e => .error e

/-! ## Well-formed textures -/

/-- The state the emulation layer keeps a texture in (its constructor is
defined in the dxvk layer): the handles of its images have been handed out by the
resource manager, a texture without multisampling has a single-sample primary
image, and a resolve image is a single-sample image other than the primary
one. -/
def D3D9CommonTexture.WellFormed (tex : D3D9CommonTexture) (env : Env) : Prop :=
  tex.m_image.handle < env.nextHandle ∧
  (tex.m_desc.MultiSample = D3DMULTISAMPLE_NONE →
    tex.m_image.info.sampleCount = VK_SAMPLE_COUNT_1_BIT) ∧
  ∀ image, tex.m_resolveImage = some image →
    image.handle < env.nextHandle ∧ image.handle ≠ tex.m_image.handle ∧
    image.info.sampleCount = VK_SAMPLE_COUNT_1_BIT

/-! ## Concrete inputs -/

/-- A device with distinct handles. -/
def sampleDxvkDevice : DxvkDevice :=
  { handle := 11, adapterHandle := 12, instanceHandle := 13
    queues := { graphics := { queueHandle := 14, queueIndex := 2 } } }

/-- A 1920x1080 single-sample surface whose image has handle 40. -/
def surface1080p : D3D9Surface :=
  { m_texture :=
    { m_desc := { Width := 1920, Height := 1080, MultiSample := D3DMULTISAMPLE_NONE }
      m_image := { handle := 40
                   info := { sampleCount := 1, mipLevels := 1, numLayers := 1, layout := 2 } }
      m_resolveImage := none
      m_mapping := { FormatColor := 37 }
      m_device := sampleDxvkDevice
      m_seqs := fun _ => 7 } }

/-- A 1280x720 surface created with sample count 4 whose image has handle 41
and which has no resolve image yet. -/
def surfaceMsaa4 : D3D9Surface :=
  { m_texture :=
    { m_desc := { Width := 1280, Height := 720, MultiSample := 4 }
      m_image := { handle := 41
                   info := { sampleCount := 4, mipLevels := 1, numLayers := 1, layout := 2 } }
      m_resolveImage := none
      m_mapping := { FormatColor := 37 }
      m_device := sampleDxvkDevice
      m_seqs := fun _ => 9 } }

/-- An emulation layer with no call recorded and the handles below 100 used. -/
def sampleEnv : Env := { calls := [], nextHandle := 100 }

/-- A device with work at every stage, whose back buffer is `surface1080p`. -/
def sampleDevice : D3D9DeviceEx :=
  { m_dxvkDevice := sampleDxvkDevice
    m_multithread := 5
    m_recorded := 3
    m_buffered := 2
    m_inFlight := 4
    m_retired := 1
    m_backBuffers := fun i j t =>
      if i = 0 ∧ j = 0 ∧ t = D3DBACKBUFFER_TYPE_MONO then (D3D_OK, some surface1080p)
      else (D3DERR_INVALIDCALL, none) }

/-- An adapter on `sampleDevice` that holds no token. -/
def sampleVR : D3D9VR := { m_device := some sampleDevice, m_lock := D3D9DeviceLock.empty }

/-- A descriptor of zeroes. -/
def zeroDesc : D3D9_TEXTURE_VR_DESC := ⟨0, 0, 0, 0, 0, 0, 0, 0, 0, 0⟩

/-- A holder of zeroes. -/
def zeroHolder : SharedTextureHolder :=
  { m_VulkanData := ⟨0, 0, 0, 0, 0, 0, 0, 0, 0, 0⟩
    m_VRTexture := { handle := TextureHandle.null, eType := 0, eColorSpace := 0 } }

/-! ## Bit helpers of `sdk/common_defs.h` -/

/-- The constant `BITS_PER_INT`. -/
def BITS_PER_INT : Int := 32

/-- The value of the 32-bit `int` whose bit pattern is `n` modulo `2 ^ 32`. -/
def int32 (n : Int) : Int := (n + 2 ^ 31) % 2 ^ 32 - 2 ^ 31

/-- The bit pattern of a 32-bit `int` in two's complement, as a number below
`2 ^ 32`. -/
def bits32 (a : Int) : Nat := (a % 2 ^ 32).toNat

/-- The operation `a & b` on 32-bit `int`s. -/
def and32 (a b : Int) : Int := int32 ((bits32 a &&& bits32 b : Nat) : Int)

/-- The operation `a << k` on 32-bit `int`s, computed modulo `2 ^ 32`. -/
def shl32 (a k : Int) : Int := int32 (a * 2 ^ k.toNat)

/-- The table `bitsForBitnum` of `GetBitForBitnum`. -/
def bitsForBitnum : List Int :=
  [ shl32 1 0,
    shl32 1 1,
    shl32 1 2,
    shl32 1 3,
    shl32 1 4,
    shl32 1 5,
    shl32 1 6,
    shl32 1 7,
    shl32 1 8,
    shl32 1 9,
    shl32 1 10,
    shl32 1 11,
    shl32 1 12,
    shl32 1 13,
    shl32 1 14,
    shl32 1 15,
    shl32 1 16,
    shl32 1 17,
    shl32 1 18,
    shl32 1 19,
    shl32 1 20,
    shl32 1 21,
    shl32 1 22,
    shl32 1 23,
    shl32 1 24,
    shl32 1 25,
    shl32 1 26,
    shl32 1 27,
    shl32 1 28,
    shl32 1 29,
    shl32 1 30,
    shl32 1 31 ]

/-- The function `GetBitForBitnum`; `none` is a read outside the table. -/
def GetBitForBitnum (bitNum : Int) : Option Int :=
  if 0 ≤ and32 bitNum (BITS_PER_INT - 1) then
    bitsForBitnum[(and32 bitNum (BITS_PER_INT - 1)).toNat]?
  else none

/-- The shift form of the macro `BitVec_Bit`. -/
def BitVec_Bit (bitNum : Int) : Int := shl32 1 (and32 bitNum (BITS_PER_INT - 1))

/-! ## Lemmas on the emulation layer -/

theorem wellFormed_surface1080p : surface1080p.GetCommonTexture.WellFormed sampleEnv := by
  refine ⟨by decide, fun _ => rfl, ?_⟩
  intro image h
  simp [surface1080p, D3D9Surface.GetCommonTexture] at h

theorem wellFormed_surfaceMsaa4 : surfaceMsaa4.GetCommonTexture.WellFormed sampleEnv := by
  refine ⟨by decide, ?_, ?_⟩
  · intro h
    simp [surfaceMsaa4, D3D9Surface.GetCommonTexture, D3DMULTISAMPLE_NONE] at h
  · intro image h
    simp [surfaceMsaa4, D3D9Surface.GetCommonTexture] at h

/-- The resolve image handed out is the one the texture keeps afterwards. -/
theorem GetResolveImage_kept (tex : D3D9CommonTexture) (env : Env) :
    (tex.GetResolveImage env).2.1.m_resolveImage = some (tex.GetResolveImage env).1 := by
  unfold D3D9CommonTexture.GetResolveImage
  cases h : tex.m_resolveImage <;> simp [h]

/-- A call of `GetResolveImage` leaves the primary image and the description
of the texture alone. -/
theorem GetResolveImage_primary (tex : D3D9CommonTexture) (env : Env) :
    (tex.GetResolveImage env).2.1.m_image = tex.m_image ∧
    (tex.GetResolveImage env).2.1.m_desc = tex.m_desc := by
  unfold D3D9CommonTexture.GetResolveImage
  cases h : tex.m_resolveImage <;> simp [h]

/-- A call of `GetResolveImage` records exactly itself. -/
theorem GetResolveImage_calls (tex : D3D9CommonTexture) (env : Env) :
    (tex.GetResolveImage env).2.2.calls
      = env.calls ++ [Call.GetResolveImage tex.m_image.handle] := by
  unfold D3D9CommonTexture.GetResolveImage
  cases h : tex.m_resolveImage <;> simp [h, Env.log]

/-- On a well-formed texture the resolve image is a single-sample image whose
handle is not the one of the primary image. -/
theorem GetResolveImage_distinct (tex : D3D9CommonTexture) (env : Env)
    (hwf : tex.WellFormed env) :
    (tex.GetResolveImage env).1.handle ≠ tex.m_image.handle ∧
    (tex.GetResolveImage env).1.info.sampleCount = VK_SAMPLE_COUNT_1_BIT := by
  obtain ⟨hlt, _, hres⟩ := hwf
  unfold D3D9CommonTexture.GetResolveImage
  cases h : tex.m_resolveImage with
  | none =>
    exact ⟨Nat.ne_of_gt hlt, rfl⟩
  | some image =>
    simp only
    exact ⟨(hres image h).2.1, (hres image h).2.2⟩

/-- A second call of `GetResolveImage` returns the image of the first. -/
theorem GetResolveImage_cached (tex : D3D9CommonTexture) (env env2 : Env) :
    ((tex.GetResolveImage env).2.1.GetResolveImage env2).1 = (tex.GetResolveImage env).1 := by
  have h := GetResolveImage_kept tex env
  generalize (tex.GetResolveImage env).2.1 = tex1 at h ⊢
  generalize (tex.GetResolveImage env).1 = image at h ⊢
  unfold D3D9CommonTexture.GetResolveImage
  simp [h]

/-- Well-formedness survives a call of `GetResolveImage`. -/
theorem GetResolveImage_wellFormed (tex : D3D9CommonTexture) (env : Env)
    (hwf : tex.WellFormed env) :
    (tex.GetResolveImage env).2.1.WellFormed (tex.GetResolveImage env).2.2 := by
  obtain ⟨hlt, hone, hres⟩ := hwf
  unfold D3D9CommonTexture.GetResolveImage
  cases h : tex.m_resolveImage with
  | none =>
    refine ⟨Nat.lt_succ_of_lt hlt, hone, ?_⟩
    intro image himg
    simp only [Env.log, Option.some.injEq] at himg
    subst himg
    exact ⟨Nat.lt_succ_self _, Nat.ne_of_gt hlt, rfl⟩
  | some image =>
    refine ⟨hlt, hone, ?_⟩
    intro image2 himg
    have himg2 : tex.m_resolveImage = some image2 := himg
    exact hres image2 himg2

/-! ## Surface description -/

/-- C1: on a non-null single-sample surface and a non-null output descriptor,
`GetVRDesc` returns `D3D_OK`, the `Image` field is the handle of the surface's
own primary image, and the resolve path is not taken: no call is made into
the emulation layer, no image is created and the surface is as before. -/
theorem GetVRDesc_single_sample (self : D3D9VR) (env : Env) (surface : D3D9Surface)
    (desc0 : D3D9_TEXTURE_VR_DESC)
    (h : surface.GetCommonTexture.Desc.MultiSample = D3DMULTISAMPLE_NONE) :
    (self.GetVRDesc env (some surface) (some desc0)).hr = D3D_OK ∧
    (∃ out, (self.GetVRDesc env (some surface) (some desc0)).pDesc = some out ∧
      out.Image = surface.GetCommonTexture.GetImage.handle) ∧
    (self.GetVRDesc env (some surface) (some desc0)).env = env ∧
    (∀ primary, Call.GetResolveImage primary ∈
        (self.GetVRDesc env (some surface) (some desc0)).env.calls →
      Call.GetResolveImage primary ∈ env.calls) ∧
    (self.GetVRDesc env (some surface) (some desc0)).pSurface = some surface := by
  have henv : (self.GetVRDesc env (some surface) (some desc0)).env = env := by
    simp [D3D9VR.GetVRDesc, h]
  refine ⟨rfl, ⟨_, rfl, ?_⟩, henv, ?_, ?_⟩
  · simp [h]
  · intro primary hp
    rw [henv] at hp
    exact hp
  · simp only [D3D9VR.GetVRDesc, h, ne_eq, not_true_eq_false, if_false]
    rfl

theorem GetVRDesc_single_sample_witness :
    surface1080p.GetCommonTexture.Desc.MultiSample = D3DMULTISAMPLE_NONE ∧
    ((sampleVR.GetVRDesc sampleEnv (some surface1080p) (some zeroDesc)).hr = D3D_OK ∧
    (∃ out, (sampleVR.GetVRDesc sampleEnv (some surface1080p) (some zeroDesc)).pDesc
        = some out ∧
      out.Image = surface1080p.GetCommonTexture.GetImage.handle) ∧
    (sampleVR.GetVRDesc sampleEnv (some surface1080p) (some zeroDesc)).env = sampleEnv ∧
    (∀ primary, Call.GetResolveImage primary ∈
        (sampleVR.GetVRDesc sampleEnv (some surface1080p) (some zeroDesc)).env.calls →
      Call.GetResolveImage primary ∈ sampleEnv.calls) ∧
    (sampleVR.GetVRDesc sampleEnv (some surface1080p) (some zeroDesc)).pSurface
      = some surface1080p) :=
  ⟨rfl, GetVRDesc_single_sample sampleVR sampleEnv surface1080p zeroDesc rfl⟩

/-- C2: on a non-null multisampled surface, `GetVRDesc` puts in `Image` the
handle of the surface's resolve image, that handle is not the handle of the
primary image, and a second `GetVRDesc` on the surface right after the first
returns the same `Image` handle. -/
theorem GetVRDesc_multisampled (self : D3D9VR) (env : Env) (surface : D3D9Surface)
    (desc0 desc1 : D3D9_TEXTURE_VR_DESC)
    (hms : surface.GetCommonTexture.Desc.MultiSample ≠ D3DMULTISAMPLE_NONE)
    (hwf : surface.GetCommonTexture.WellFormed env) :
    ∃ surface1 out resolve,
      (self.GetVRDesc env (some surface) (some desc0)).pSurface = some surface1 ∧
      (self.GetVRDesc env (some surface) (some desc0)).pDesc = some out ∧
      surface1.GetCommonTexture.m_resolveImage = some resolve ∧
      surface1.GetCommonTexture.GetImage = surface.GetCommonTexture.GetImage ∧
      out.Image = resolve.handle ∧
      resolve.handle ≠ surface.GetCommonTexture.GetImage.handle ∧
      ∃ out2,
        (self.GetVRDesc (self.GetVRDesc env (some surface) (some desc0)).env
          (self.GetVRDesc env (some surface) (some desc0)).pSurface (some desc1)).pDesc
          = some out2 ∧
        out2.Image = out.Image := by
  have hms2 : surface.m_texture.m_desc.MultiSample ≠ D3DMULTISAMPLE_NONE := hms
  have hprim := GetResolveImage_primary surface.m_texture env
  refine ⟨_, _, (surface.m_texture.GetResolveImage env).1, rfl, rfl, ?_, ?_, ?_, ?_, ?_⟩
  · simp [D3D9Surface.GetCommonTexture, D3D9CommonTexture.Desc, hms2,
      GetResolveImage_kept]
  · simp [D3D9Surface.GetCommonTexture, D3D9CommonTexture.Desc, hms2,
      D3D9CommonTexture.GetImage, hprim.1]
  · simp [D3D9Surface.GetCommonTexture, D3D9CommonTexture.Desc, hms2]
  · exact (GetResolveImage_distinct surface.m_texture env hwf).1
  · refine ⟨_, rfl, ?_⟩
    simp [D3D9Surface.GetCommonTexture, D3D9CommonTexture.Desc, hms2, hprim.2,
      GetResolveImage_cached]

theorem GetVRDesc_multisampled_witness :
    surfaceMsaa4.GetCommonTexture.Desc.MultiSample ≠ D3DMULTISAMPLE_NONE ∧
    surfaceMsaa4.GetCommonTexture.WellFormed sampleEnv ∧
    ∃ surface1 out resolve,
      (sampleVR.GetVRDesc sampleEnv (some surfaceMsaa4) (some zeroDesc)).pSurface
        = some surface1 ∧
      (sampleVR.GetVRDesc sampleEnv (some surfaceMsaa4) (some zeroDesc)).pDesc = some out ∧
      surface1.GetCommonTexture.m_resolveImage = some resolve ∧
      surface1.GetCommonTexture.GetImage = surfaceMsaa4.GetCommonTexture.GetImage ∧
      out.Image = resolve.handle ∧
      resolve.handle ≠ surfaceMsaa4.GetCommonTexture.GetImage.handle ∧
      ∃ out2,
        (sampleVR.GetVRDesc (sampleVR.GetVRDesc sampleEnv (some surfaceMsaa4) (some zeroDesc)).env
          (sampleVR.GetVRDesc sampleEnv (some surfaceMsaa4) (some zeroDesc)).pSurface
          (some zeroDesc)).pDesc = some out2 ∧
        out2.Image = out.Image :=
  ⟨by decide, wellFormed_surfaceMsaa4,
    GetVRDesc_multisampled sampleVR sampleEnv surfaceMsaa4 zeroDesc zeroDesc (by decide)
      wellFormed_surfaceMsaa4⟩

/-- C3: whenever `GetVRDesc` returns `D3D_OK` on a surface, the descriptor
does not describe a multisampled image: the handle in `Image` is the handle of
an image of the surface, `SampleCount` is the sample count of the image with
that handle, and that sample count is 1. -/
theorem GetVRDesc_never_multisampled (self : D3D9VR) (env : Env)
    (pSurface : Option D3D9Surface) (pDesc : Option D3D9_TEXTURE_VR_DESC)
    (hwf : ∀ surface, pSurface = some surface → surface.GetCommonTexture.WellFormed env)
    (hok : (self.GetVRDesc env pSurface pDesc).hr = D3D_OK) :
    ∃ surface1 out,
      (self.GetVRDesc env pSurface pDesc).pSurface = some surface1 ∧
      (self.GetVRDesc env pSurface pDesc).pDesc = some out ∧
      (∃ image ∈ surface1.GetCommonTexture.images, image.handle = out.Image) ∧
      ∀ image ∈ surface1.GetCommonTexture.images, image.handle = out.Image →
        out.SampleCount = image.info.sampleCount ∧ image.info.sampleCount = 1 := by
  cases pSurface with
  | none => cases pDesc <;> simp [D3D9VR.GetVRDesc, D3D_OK, D3DERR_INVALIDCALL] at hok
  | some surface =>
    cases pDesc with
    | none => simp [D3D9VR.GetVRDesc, D3D_OK, D3DERR_INVALIDCALL] at hok
    | some desc0 =>
      have hw := hwf surface rfl
      refine ⟨_, _, rfl, rfl, ?_⟩
      by_cases hms : surface.m_texture.m_desc.MultiSample = D3DMULTISAMPLE_NONE
      · obtain ⟨_, hone, hres⟩ := hw
        have hone1 := hone hms
        simp only [D3D9Surface.GetCommonTexture, D3D9CommonTexture.Desc, hms, ne_eq,
          not_true_eq_false, if_false, D3D9CommonTexture.GetImage,
          D3D9CommonTexture.images, List.mem_cons]
        refine ⟨⟨_, Or.inl rfl, rfl⟩, ?_⟩
        rintro image (rfl | himg) heq
        · exact ⟨rfl, hone1⟩
        · rw [Option.mem_toList] at himg
          exact absurd heq (hres image himg).2.1
      · have hkept := GetResolveImage_kept surface.m_texture env
        have hprim := GetResolveImage_primary surface.m_texture env
        have hdist := GetResolveImage_distinct surface.m_texture env hw
        simp only [D3D9Surface.GetCommonTexture, D3D9CommonTexture.Desc, hms, ne_eq,
          not_false_eq_true, if_true, D3D9CommonTexture.images, List.mem_cons, hkept,
          hprim.1, Option.toList_some, List.mem_singleton, List.not_mem_nil, or_false]
        refine ⟨⟨_, Or.inr rfl, rfl⟩, ?_⟩
        rintro image (rfl | rfl) heq
        · exact absurd heq.symm hdist.1
        · exact ⟨rfl, hdist.2⟩

theorem GetVRDesc_never_multisampled_witness :
    (∀ surface, some surfaceMsaa4 = some surface →
      surface.GetCommonTexture.WellFormed sampleEnv) ∧
    (sampleVR.GetVRDesc sampleEnv (some surfaceMsaa4) (some zeroDesc)).hr = D3D_OK ∧
    surfaceMsaa4.GetCommonTexture.GetImage.info.sampleCount = 4 ∧
    ∃ surface1 out,
      (sampleVR.GetVRDesc sampleEnv (some surfaceMsaa4) (some zeroDesc)).pSurface
        = some surface1 ∧
      (sampleVR.GetVRDesc sampleEnv (some surfaceMsaa4) (some zeroDesc)).pDesc = some out ∧
      (∃ image ∈ surface1.GetCommonTexture.images, image.handle = out.Image) ∧
      ∀ image ∈ surface1.GetCommonTexture.images, image.handle = out.Image →
        out.SampleCount = image.info.sampleCount ∧ image.info.sampleCount = 1 :=
  ⟨fun _ h => Option.some.inj h ▸ wellFormed_surfaceMsaa4, rfl, rfl,
    GetVRDesc_never_multisampled sampleVR sampleEnv (some surfaceMsaa4) (some zeroDesc)
      (fun _ h => Option.some.inj h ▸ wellFormed_surfaceMsaa4) rfl⟩

/-- C4: on a non-null surface and a non-null output descriptor, `GetVRDesc`
returns `D3D_OK` and fills the metadata from existing state: `Width` and
`Height` are those of the texture description, `Format` is the colour format
of the texture's format mapping, and `Device`, `PhysicalDevice`, `Instance`,
`Queue` and `QueueFamilyIndex` are the device, adapter and instance handles
and the graphics queue handle and index of the texture's owning device. -/
theorem GetVRDesc_metadata (self : D3D9VR) (env : Env) (surface : D3D9Surface)
    (desc0 : D3D9_TEXTURE_VR_DESC) :
    (self.GetVRDesc env (some surface) (some desc0)).hr = D3D_OK ∧
    ∃ out, (self.GetVRDesc env (some surface) (some desc0)).pDesc = some out ∧
      out.Width = surface.GetCommonTexture.Desc.Width ∧
      out.Height = surface.GetCommonTexture.Desc.Height ∧
      out.Format = surface.GetCommonTexture.GetFormatMapping.FormatColor ∧
      out.Device = surface.GetCommonTexture.Device.handle ∧
      out.PhysicalDevice = surface.GetCommonTexture.Device.adapterHandle ∧
      out.Instance = surface.GetCommonTexture.Device.instanceHandle ∧
      out.Queue = surface.GetCommonTexture.Device.queues.graphics.queueHandle ∧
      out.QueueFamilyIndex = surface.GetCommonTexture.Device.queues.graphics.queueIndex :=
  ⟨rfl, _, rfl, rfl, rfl, rfl, rfl, rfl, rfl, rfl, rfl⟩

/-! ## Layout transition -/

/-- C5: on a non-null surface and with a non-zero wait flag, `TransferSurface`
returns `D3D_OK`, the primary image of the surface is in the layout
`VK_IMAGE_LAYOUT_TRANSFER_SRC_OPTIMAL` on return, and the last thing done
before returning is the device's wait on the sequence number recorded for
that image, which the device has reported retired. -/
theorem TransferSurface_wait (dev : D3D9DeviceEx) (lock : D3D9DeviceLock) (env : Env)
    (surface : D3D9Surface) (waitResourceIdle : Int) (hwait : waitResourceIdle ≠ 0) :
    ∃ r surface1 dev1,
      D3D9VR.TransferSurface { m_device := some dev, m_lock := lock } env (some surface)
        waitResourceIdle = .ok r ∧
      r.hr = D3D_OK ∧
      r.pSurface = some surface1 ∧
      surface1.GetCommonTexture.GetImage.handle = surface.GetCommonTexture.GetImage.handle ∧
      surface1.GetCommonTexture.GetImage.info.layout = VK_IMAGE_LAYOUT_TRANSFER_SRC_OPTIMAL ∧
      r.self.m_device = some dev1 ∧
      surface.GetCommonTexture.GetMappingBufferSequenceNumber 0 ≤ dev1.m_retired ∧
      r.env.calls.getLast? = some (Call.WaitForResource
        surface.GetCommonTexture.GetImage.handle
        (surface.GetCommonTexture.GetMappingBufferSequenceNumber 0) D3DLOCK_READONLY) := by
  simp only [D3D9VR.TransferSurface, hwait, ne_eq, not_false_eq_true, if_true]
  refine ⟨_, _, _, rfl, rfl, rfl, ?_, ?_, rfl, ?_, ?_⟩
  · simp [D3D9Surface.GetCommonTexture, D3D9DeviceEx.TransformImage,
      D3D9CommonTexture.GetImage, VkImageSubresourceRange.coversAll]
  · simp [D3D9Surface.GetCommonTexture, D3D9DeviceEx.TransformImage,
      D3D9CommonTexture.GetImage, VkImageSubresourceRange.coversAll]
  · simp [D3D9DeviceEx.WaitForResource, D3D9DeviceEx.TransformImage,
      D3D9CommonTexture.GetMappingBufferSequenceNumber, D3D9Surface.GetCommonTexture]
  · simp [D3D9DeviceEx.WaitForResource, D3D9DeviceEx.TransformImage, Env.log,
      D3D9CommonTexture.GetMappingBufferSequenceNumber, D3D9Surface.GetCommonTexture,
      D3D9CommonTexture.GetImage, VkImageSubresourceRange.coversAll]

theorem TransferSurface_wait_witness :
    (1 : Int) ≠ 0 ∧
    ∃ r surface1 dev1,
      D3D9VR.TransferSurface { m_device := some sampleDevice, m_lock := D3D9DeviceLock.empty }
        sampleEnv (some surface1080p) 1 = .ok r ∧
      r.hr = D3D_OK ∧
      r.pSurface = some surface1 ∧
      surface1.GetCommonTexture.GetImage.handle
        = surface1080p.GetCommonTexture.GetImage.handle ∧
      surface1.GetCommonTexture.GetImage.info.layout = VK_IMAGE_LAYOUT_TRANSFER_SRC_OPTIMAL ∧
      r.self.m_device = some dev1 ∧
      surface1080p.GetCommonTexture.GetMappingBufferSequenceNumber 0 ≤ dev1.m_retired ∧
      r.env.calls.getLast? = some (Call.WaitForResource
        surface1080p.GetCommonTexture.GetImage.handle
        (surface1080p.GetCommonTexture.GetMappingBufferSequenceNumber 0) D3DLOCK_READONLY) :=
  ⟨by decide, TransferSurface_wait sampleDevice D3D9DeviceLock.empty sampleEnv surface1080p 1
    (by decide)⟩

/-! ## Full pipeline barrier -/

/-- C8: from every device state, `WaitDeviceIdle` makes exactly the calls
`Flush`, `SynchronizeCsThread(SynchronizeAll)` and `waitForIdle`, in this
order, returns `D3D_OK`, and the outstanding-work counter of the device is zero
on return. -/
theorem WaitDeviceIdle_idle (dev : D3D9DeviceEx) (lock : D3D9DeviceLock) (env : Env) :
    ∃ r dev1,
      D3D9VR.WaitDeviceIdle { m_device := some dev, m_lock := lock } env = .ok r ∧
      r.hr = D3D_OK ∧
      r.env.calls = env.calls ++
        [Call.Flush, Call.SynchronizeCsThread SynchronizeAll, Call.waitForIdle] ∧
      r.self.m_device = some dev1 ∧
      dev1.outstandingWork = 0 :=
  ⟨_, _, rfl, rfl,
    by simp [D3D9DeviceEx.Flush, D3D9DeviceEx.SynchronizeCsThread,
      D3D9DeviceEx.waitForIdle, Env.log],
    rfl,
    by simp [D3D9DeviceEx.Flush, D3D9DeviceEx.SynchronizeCsThread,
      D3D9DeviceEx.waitForIdle, D3D9DeviceEx.outstandingWork]⟩

/-! ## Device lock scope -/

/-- A call other than `UnlockDevice` on an adapter with a device returns,
leaves the adapter on a device with the same serialization primitive, and
leaves in the lock slot either what was there or the token of the device. -/
theorem call_keeps_lock (dev : D3D9DeviceEx) (lock : D3D9DeviceLock) (env : Env) (op : Op)
    (hun : op.isUnlock = false) (hargs : op.argsValid = true) :
    ∃ s dev1,
      D3D9VR.call { m_device := some dev, m_lock := lock } env op = .ok s ∧
      s.1.m_device = some dev1 ∧
      dev1.m_multithread = dev.m_multithread ∧
      (s.1.m_lock = lock ∨ s.1.m_lock = ⟨some dev.m_multithread⟩) := by
  cases op with
  | GetVRDesc pSurface pDesc => exact ⟨_, _, rfl, rfl, rfl, Or.inl rfl⟩
  | TransferSurface pSurface waitResourceIdle =>
    cases pSurface with
    | none => exact ⟨_, _, rfl, rfl, rfl, Or.inl rfl⟩
    | some surface =>
      by_cases hw : waitResourceIdle = 0
      · subst hw
        exact ⟨_, _, rfl, rfl, rfl, Or.inl rfl⟩
      · simp only [D3D9VR.call, D3D9VR.TransferSurface, hw, ne_eq, not_false_eq_true,
          if_true]
        exact ⟨_, _, rfl, rfl, rfl, Or.inl rfl⟩
  | LockDevice => exact ⟨_, _, rfl, rfl, rfl, Or.inr rfl⟩
  | UnlockDevice => simp [Op.isUnlock] at hun
  | WaitDeviceIdle => exact ⟨_, _, rfl, rfl, rfl, Or.inl rfl⟩
  | GetBackBufferData backBufferData uninit =>
    cases backBufferData with
    | none => simp [Op.argsValid] at hargs
    | some holder =>
      cases hb : (dev.m_backBuffers 0 0 D3DBACKBUFFER_TYPE_MONO).2 with
      | none =>
        simp only [D3D9VR.call, D3D9VR.GetBackBufferData, D3D9DeviceEx.GetBackBuffer, hb,
          D3D9VR.GetVRDesc]
        exact ⟨_, _, rfl, rfl, rfl, Or.inl rfl⟩
      | some surface =>
        simp only [D3D9VR.call, D3D9VR.GetBackBufferData, D3D9DeviceEx.GetBackBuffer, hb,
          D3D9VR.GetVRDesc]
        exact ⟨_, _, rfl, rfl, rfl, Or.inl rfl⟩

/-- A token of the device in the lock slot stays there through every sequence
of calls without an `UnlockDevice`. -/
theorem run_keeps_lock (ops : List Op) :
    ∀ (dev : D3D9DeviceEx) (env : Env),
      (∀ op ∈ ops, op.isUnlock = false ∧ op.argsValid = true) →
      ∃ s dev1,
        D3D9VR.run { m_device := some dev, m_lock := ⟨some dev.m_multithread⟩ } env ops
          = .ok s ∧
        s.1.m_device = some dev1 ∧
        dev1.m_multithread = dev.m_multithread ∧
        s.1.m_lock = ⟨some dev.m_multithread⟩ := by
  induction ops with
  | nil => intro dev env _; exact ⟨_, _, rfl, rfl, rfl, rfl⟩
  | cons op ops ih =>
    intro dev env hops
    have hop := hops op (List.mem_cons_self _ _)
    obtain ⟨s, dev1, hcall, hdev, hm, hlock⟩ :=
      call_keeps_lock dev ⟨some dev.m_multithread⟩ env op hop.1 hop.2
    have hlock2 : s.1.m_lock = ⟨some dev1.m_multithread⟩ := by
      rw [hm]
      rcases hlock with h | h <;> exact h
    obtain ⟨s2, dev2, hrun, hdev2, hm2, hlock3⟩ :=
      ih dev1 s.2 (fun o ho => hops o (List.mem_cons_of_mem _ ho))
    have hs : s.1 = { m_device := some dev1, m_lock := ⟨some dev1.m_multithread⟩ } := by
      cases hs1 : s.1 with
      | mk d l =>
        rw [hs1] at hdev hlock2
        simp only at hdev hlock2
        rw [hdev, hlock2]
    refine ⟨s2, dev2, ?_, hdev2, hm2.trans hm, by rw [hlock3, hm]⟩
    simp only [D3D9VR.run, hcall]
    rw [hs]
    exact hrun

/-- The method `TransferSurface` returns on an adapter with a device and leaves the
lock slot alone. -/
theorem TransferSurface_lock (dev : D3D9DeviceEx) (lock : D3D9DeviceLock) (env : Env)
    (pSurface : Option D3D9Surface) (waitResourceIdle : Int) :
    ∃ r, D3D9VR.TransferSurface { m_device := some dev, m_lock := lock } env pSurface
        waitResourceIdle = .ok r ∧
      r.self.m_lock = lock := by
  cases pSurface with
  | none => exact ⟨_, rfl, rfl⟩
  | some surface =>
    by_cases hw : waitResourceIdle = 0
    · subst hw
      exact ⟨_, rfl, rfl⟩
    · simp only [D3D9VR.TransferSurface, hw, ne_eq, not_false_eq_true, if_true]
      exact ⟨_, rfl, rfl⟩

/-- The method `GetBackBufferData` returns on an adapter with a device and a non-null
holder, with the status of the fetch, and leaves the lock slot alone. -/
theorem GetBackBufferData_lock (dev : D3D9DeviceEx) (lock : D3D9DeviceLock) (env : Env)
    (holder : SharedTextureHolder) (uninit : D3D9_TEXTURE_VR_DESC) :
    ∃ r, D3D9VR.GetBackBufferData { m_device := some dev, m_lock := lock } env
        (some holder) uninit = .ok r ∧
      r.self.m_lock = lock ∧
      r.hr = (dev.GetBackBuffer env 0 0 D3DBACKBUFFER_TYPE_MONO).1 := by
  cases hb : (dev.m_backBuffers 0 0 D3DBACKBUFFER_TYPE_MONO).2 with
  | none =>
    simp only [D3D9VR.GetBackBufferData, D3D9DeviceEx.GetBackBuffer, hb, D3D9VR.GetVRDesc]
    exact ⟨_, rfl, rfl, rfl⟩
  | some surface =>
    simp only [D3D9VR.GetBackBufferData, D3D9DeviceEx.GetBackBuffer, hb, D3D9VR.GetVRDesc]
    exact ⟨_, rfl, rfl, rfl⟩

/-- C6: on an adapter with a device, `LockDevice` returns `D3D_OK` and leaves
the token of the device in the lock slot; `GetVRDesc`, `TransferSurface`,
`WaitDeviceIdle` and `GetBackBufferData` leave the slot as it was;
`UnlockDevice` returns `D3D_OK` and leaves the empty token in the slot.  So
after `LockDevice` the token stays in the slot through every sequence of calls
without an `UnlockDevice`, and the `UnlockDevice` that follows empties it. -/
theorem lock_held_until_unlock (dev : D3D9DeviceEx) (lock : D3D9DeviceLock) (env : Env)
    (ops : List Op) (hops : ∀ op ∈ ops, op.isUnlock = false ∧ op.argsValid = true) :
    (∃ r, D3D9VR.LockDevice { m_device := some dev, m_lock := lock } env = .ok r ∧
      r.hr = D3D_OK ∧
      r.self.m_lock = ⟨some dev.m_multithread⟩ ∧
      r.self.m_lock ≠ D3D9DeviceLock.empty ∧
      ∃ s, r.self.run r.env ops = .ok s ∧
        s.1.m_lock = ⟨some dev.m_multithread⟩ ∧
        (s.1.UnlockDevice s.2).hr = D3D_OK ∧
        (s.1.UnlockDevice s.2).self.m_lock = D3D9DeviceLock.empty) ∧
    (∀ pSurface pDesc, ∃ s,
      D3D9VR.call { m_device := some dev, m_lock := lock } env (Op.GetVRDesc pSurface pDesc)
        = .ok s ∧
      s.1.m_lock = lock) ∧
    (∀ pSurface waitResourceIdle, ∃ r,
      D3D9VR.TransferSurface { m_device := some dev, m_lock := lock } env pSurface
        waitResourceIdle = .ok r ∧
      r.self.m_lock = lock) ∧
    (∃ r, D3D9VR.WaitDeviceIdle { m_device := some dev, m_lock := lock } env = .ok r ∧
      r.self.m_lock = lock) ∧
    (∀ holder uninit, ∃ r,
      D3D9VR.GetBackBufferData { m_device := some dev, m_lock := lock } env (some holder)
        uninit = .ok r ∧
      r.self.m_lock = lock) ∧
    ∀ self : D3D9VR, (self.UnlockDevice env).hr = D3D_OK ∧
      (self.UnlockDevice env).self.m_lock = D3D9DeviceLock.empty := by
  refine ⟨?_, fun _ _ => ⟨_, rfl, rfl⟩, fun p w => TransferSurface_lock dev lock env p w,
    ⟨_, rfl, rfl⟩, ?_, fun _ => ⟨rfl, rfl⟩⟩
  · obtain ⟨s, _, hrun, _, _, hlock⟩ := run_keeps_lock ops dev
      (dev.LockDevice env).2 hops
    refine ⟨_, rfl, rfl, rfl, ?_, s, hrun, hlock, rfl, rfl⟩
    simp [D3D9DeviceLock.empty, D3D9DeviceEx.LockDevice]
  · intro holder uninit
    obtain ⟨r, hr, hl, _⟩ := GetBackBufferData_lock dev lock env holder uninit
    exact ⟨r, hr, hl⟩

theorem lock_held_until_unlock_witness :
    (∀ op ∈ [Op.GetVRDesc (some surfaceMsaa4) (some zeroDesc),
        Op.TransferSurface (some surface1080p) 1, Op.WaitDeviceIdle,
        Op.GetBackBufferData (some zeroHolder) zeroDesc, Op.LockDevice],
      op.isUnlock = false ∧ op.argsValid = true) ∧
    ∃ r, D3D9VR.LockDevice { m_device := some sampleDevice, m_lock := D3D9DeviceLock.empty }
        sampleEnv = .ok r ∧
      r.hr = D3D_OK ∧
      r.self.m_lock = ⟨some sampleDevice.m_multithread⟩ ∧
      r.self.m_lock ≠ D3D9DeviceLock.empty ∧
      ∃ s, r.self.run r.env [Op.GetVRDesc (some surfaceMsaa4) (some zeroDesc),
          Op.TransferSurface (some surface1080p) 1, Op.WaitDeviceIdle,
          Op.GetBackBufferData (some zeroHolder) zeroDesc, Op.LockDevice] = .ok s ∧
        s.1.m_lock = ⟨some sampleDevice.m_multithread⟩ ∧
        (s.1.UnlockDevice s.2).hr = D3D_OK ∧
        (s.1.UnlockDevice s.2).self.m_lock = D3D9DeviceLock.empty :=
  ⟨by simp [Op.isUnlock, Op.argsValid],
    (lock_held_until_unlock sampleDevice D3D9DeviceLock.empty sampleEnv _
      (by simp [Op.isUnlock, Op.argsValid])).1⟩

/-! ## Back-buffer assembly -/

/-- The resolve image handed out does not depend on the calls recorded. -/
theorem GetResolveImage_log (tex : D3D9CommonTexture) (env : Env) (c : Call) :
    (tex.GetResolveImage (env.log c)).1 = (tex.GetResolveImage env).1 := by
  unfold D3D9CommonTexture.GetResolveImage
  cases h : tex.m_resolveImage <;> simp [Env.log]

/-- The descriptor `GetVRDesc` writes does not depend on the adapter nor on
the calls recorded. -/
theorem GetVRDesc_log (self self2 : D3D9VR) (env : Env) (c : Call)
    (pSurface : Option D3D9Surface) (pDesc : Option D3D9_TEXTURE_VR_DESC) :
    (self.GetVRDesc (env.log c) pSurface pDesc).pDesc
      = (self2.GetVRDesc env pSurface pDesc).pDesc := by
  cases pSurface with
  | none => cases pDesc <;> rfl
  | some surface =>
    cases pDesc with
    | none => rfl
    | some desc0 =>
      by_cases hms : surface.GetCommonTexture.Desc.MultiSample = D3DMULTISAMPLE_NONE
      · simp [D3D9VR.GetVRDesc, hms]
      · simp [D3D9VR.GetVRDesc, hms, GetResolveImage_log]

/-- Every call `GetVRDesc` records is a `GetResolveImage`. -/
theorem GetVRDesc_calls (self : D3D9VR) (env : Env) (pSurface : Option D3D9Surface)
    (pDesc : Option D3D9_TEXTURE_VR_DESC) :
    ∃ rest, (self.GetVRDesc env pSurface pDesc).env.calls = env.calls ++ rest ∧
      ∀ c ∈ rest, ∃ primary, c = Call.GetResolveImage primary := by
  cases pSurface with
  | none => cases pDesc <;> exact ⟨[], by simp [D3D9VR.GetVRDesc], by simp⟩
  | some surface =>
    cases pDesc with
    | none => exact ⟨[], by simp [D3D9VR.GetVRDesc], by simp⟩
    | some desc0 =>
      by_cases hms : surface.GetCommonTexture.Desc.MultiSample = D3DMULTISAMPLE_NONE
      · exact ⟨[], by simp [D3D9VR.GetVRDesc, hms], by simp⟩
      · refine ⟨[Call.GetResolveImage surface.GetCommonTexture.m_image.handle], ?_, ?_⟩
        · simp [D3D9VR.GetVRDesc, hms, GetResolveImage_calls]
        · simp

/-- C9: with a non-null holder and a successful fetch, `GetBackBufferData`
fetches back buffer 0 of swap chain 0 with the mono type, and every field of
the Vulkan data it stores in the holder is the field at the same position of
the descriptor `GetVRDesc` produces for the surface fetched. -/
theorem GetBackBufferData_matches_GetVRDesc (dev : D3D9DeviceEx) (lock : D3D9DeviceLock)
    (env : Env) (holder : SharedTextureHolder) (uninit desc0 : D3D9_TEXTURE_VR_DESC)
    (backBuffer : D3D9Surface)
    (hfetch : dev.m_backBuffers 0 0 D3DBACKBUFFER_TYPE_MONO = (D3D_OK, some backBuffer)) :
    ∃ r holder1 out rest,
      D3D9VR.GetBackBufferData { m_device := some dev, m_lock := lock } env (some holder)
        uninit = .ok r ∧
      r.hr = D3D_OK ∧
      r.env.calls = env.calls ++ Call.GetBackBuffer 0 0 D3DBACKBUFFER_TYPE_MONO :: rest ∧
      r.backBufferData = some holder1 ∧
      (D3D9VR.GetVRDesc { m_device := some dev, m_lock := lock } env (some backBuffer)
        (some desc0)).pDesc = some out ∧
      holder1.m_VulkanData.m_nImage = out.Image ∧
      holder1.m_VulkanData.m_pDevice = out.Device ∧
      holder1.m_VulkanData.m_pPhysicalDevice = out.PhysicalDevice ∧
      holder1.m_VulkanData.m_pInstance = out.Instance ∧
      holder1.m_VulkanData.m_pQueue = out.Queue ∧
      holder1.m_VulkanData.m_nQueueFamilyIndex = out.QueueFamilyIndex ∧
      holder1.m_VulkanData.m_nWidth = out.Width ∧
      holder1.m_VulkanData.m_nHeight = out.Height ∧
      holder1.m_VulkanData.m_nFormat = out.Format ∧
      holder1.m_VulkanData.m_nSampleCount = out.SampleCount := by
  obtain ⟨rest, hrest, _⟩ := GetVRDesc_calls { m_device := some dev, m_lock := lock }
    (env.log (Call.GetBackBuffer 0 0 D3DBACKBUFFER_TYPE_MONO)) (some backBuffer) (some uninit)
  have himg : ∀ e : Env, ∀ d1 d2 : D3D9_TEXTURE_VR_DESC,
      (D3D9VR.GetVRDesc { m_device := some dev, m_lock := lock } e (some backBuffer)
        (some d1)).pDesc
      = (D3D9VR.GetVRDesc { m_device := some dev, m_lock := lock } e (some backBuffer)
        (some d2)).pDesc := fun _ _ _ => rfl
  have hlog := GetVRDesc_log { m_device := some dev, m_lock := lock }
    { m_device := some dev, m_lock := lock } env
    (Call.GetBackBuffer 0 0 D3DBACKBUFFER_TYPE_MONO) (some backBuffer) (some uninit)
  rw [himg env uninit desc0] at hlog
  simp only [D3D9VR.GetBackBufferData, D3D9DeviceEx.GetBackBuffer, hfetch]
  simp only [D3D9VR.GetVRDesc] at hlog hrest ⊢
  refine ⟨_, _, _, rest, rfl, rfl, ?_, rfl, rfl, ?_⟩
  · rw [hrest]
    simp [Env.log]
  · have hout := Option.some.inj hlog
    exact ⟨congrArg D3D9_TEXTURE_VR_DESC.Image hout, rfl, rfl, rfl, rfl, rfl, rfl, rfl, rfl,
      congrArg D3D9_TEXTURE_VR_DESC.SampleCount hout⟩

theorem GetBackBufferData_matches_GetVRDesc_witness :
    sampleDevice.m_backBuffers 0 0 D3DBACKBUFFER_TYPE_MONO = (D3D_OK, some surface1080p) ∧
    ∃ r holder1 out rest,
      D3D9VR.GetBackBufferData { m_device := some sampleDevice, m_lock := D3D9DeviceLock.empty }
        sampleEnv (some zeroHolder) zeroDesc = .ok r ∧
      r.hr = D3D_OK ∧
      r.env.calls
        = sampleEnv.calls ++ Call.GetBackBuffer 0 0 D3DBACKBUFFER_TYPE_MONO :: rest ∧
      r.backBufferData = some holder1 ∧
      (D3D9VR.GetVRDesc { m_device := some sampleDevice, m_lock := D3D9DeviceLock.empty }
        sampleEnv (some surface1080p) (some zeroDesc)).pDesc = some out ∧
      holder1.m_VulkanData.m_nImage = out.Image ∧
      holder1.m_VulkanData.m_pDevice = out.Device ∧
      holder1.m_VulkanData.m_pPhysicalDevice = out.PhysicalDevice ∧
      holder1.m_VulkanData.m_pInstance = out.Instance ∧
      holder1.m_VulkanData.m_pQueue = out.Queue ∧
      holder1.m_VulkanData.m_nQueueFamilyIndex = out.QueueFamilyIndex ∧
      holder1.m_VulkanData.m_nWidth = out.Width ∧
      holder1.m_VulkanData.m_nHeight = out.Height ∧
      holder1.m_VulkanData.m_nFormat = out.Format ∧
      holder1.m_VulkanData.m_nSampleCount = out.SampleCount :=
  ⟨rfl, GetBackBufferData_matches_GetVRDesc sampleDevice D3D9DeviceLock.empty sampleEnv
    zeroHolder zeroDesc zeroDesc surface1080p rfl⟩

/-- C10: with a non-null holder, `GetBackBufferData` returns exactly the status
of its `GetBackBuffer` call, whatever that status is; that call is the first
call made and no second fetch follows it; and the value returned is the status
of the fetch both when the inner `GetVRDesc` succeeds and when it fails. -/
theorem GetBackBufferData_status (dev : D3D9DeviceEx) (lock : D3D9DeviceLock) (env : Env)
    (holder : SharedTextureHolder) (uninit : D3D9_TEXTURE_VR_DESC) :
    ∃ r rest,
      D3D9VR.GetBackBufferData { m_device := some dev, m_lock := lock } env (some holder)
        uninit = .ok r ∧
      r.hr = (dev.GetBackBuffer env 0 0 D3DBACKBUFFER_TYPE_MONO).1 ∧
      r.env.calls = env.calls ++ Call.GetBackBuffer 0 0 D3DBACKBUFFER_TYPE_MONO :: rest ∧
      (∀ i j t, Call.GetBackBuffer i j t ∉ rest) ∧
      ((dev.GetBackBuffer env 0 0 D3DBACKBUFFER_TYPE_MONO).2.1 = none →
        (D3D9VR.GetVRDesc { m_device := some dev, m_lock := lock }
          (dev.GetBackBuffer env 0 0 D3DBACKBUFFER_TYPE_MONO).2.2
          (dev.GetBackBuffer env 0 0 D3DBACKBUFFER_TYPE_MONO).2.1 (some uninit)).hr
          = D3DERR_INVALIDCALL) ∧
      ((dev.GetBackBuffer env 0 0 D3DBACKBUFFER_TYPE_MONO).2.1 ≠ none →
        (D3D9VR.GetVRDesc { m_device := some dev, m_lock := lock }
          (dev.GetBackBuffer env 0 0 D3DBACKBUFFER_TYPE_MONO).2.2
          (dev.GetBackBuffer env 0 0 D3DBACKBUFFER_TYPE_MONO).2.1 (some uninit)).hr
          = D3D_OK) := by
  obtain ⟨rest, hrest, hres⟩ := GetVRDesc_calls { m_device := some dev, m_lock := lock }
    (dev.GetBackBuffer env 0 0 D3DBACKBUFFER_TYPE_MONO).2.2
    (dev.GetBackBuffer env 0 0 D3DBACKBUFFER_TYPE_MONO).2.1 (some uninit)
  have hnot : ∀ i j t, Call.GetBackBuffer i j t ∉ rest := by
    intro i j t hmem
    obtain ⟨primary, hp⟩ := hres _ hmem
    cases hp
  cases hb : (dev.m_backBuffers 0 0 D3DBACKBUFFER_TYPE_MONO).2 with
  | none =>
    simp only [D3D9DeviceEx.GetBackBuffer, hb] at hrest ⊢
    simp only [D3D9VR.GetBackBufferData, D3D9DeviceEx.GetBackBuffer, hb, D3D9VR.GetVRDesc]
    refine ⟨_, rest, rfl, rfl, ?_, hnot, ?_, ?_⟩
    · simp only [D3D9VR.GetVRDesc] at hrest
      rw [hrest]
      simp [Env.log]
    · simp
    · simp
  | some surface =>
    simp only [D3D9DeviceEx.GetBackBuffer, hb] at hrest ⊢
    simp only [D3D9VR.GetBackBufferData, D3D9DeviceEx.GetBackBuffer, hb, D3D9VR.GetVRDesc]
    refine ⟨_, rest, rfl, rfl, ?_, hnot, ?_, ?_⟩
    · simp only [D3D9VR.GetVRDesc] at hrest
      rw [hrest]
      simp [Env.log]
    · simp
    · simp

/-- C11: with a non-null holder, whatever it held before (zeroes included) and
whatever the back-buffer fetch answers (success or failure), the holder has
the colour-space tag `ColorSpace_Auto` and the texture-type tag
`TextureType_Vulkan` after `GetBackBufferData` returns. -/
theorem GetBackBufferData_tags (dev : D3D9DeviceEx) (lock : D3D9DeviceLock) (env : Env)
    (holder : SharedTextureHolder) (uninit : D3D9_TEXTURE_VR_DESC) :
    ∃ r holder1,
      D3D9VR.GetBackBufferData { m_device := some dev, m_lock := lock } env (some holder)
        uninit = .ok r ∧
      r.hr = (dev.m_backBuffers 0 0 D3DBACKBUFFER_TYPE_MONO).1 ∧
      r.backBufferData = some holder1 ∧
      holder1.m_VRTexture.eColorSpace = ColorSpace_Auto ∧
      holder1.m_VRTexture.eType = TextureType_Vulkan := by
  cases hb : (dev.m_backBuffers 0 0 D3DBACKBUFFER_TYPE_MONO).2 with
  | none =>
    simp only [D3D9VR.GetBackBufferData, D3D9DeviceEx.GetBackBuffer, hb, D3D9VR.GetVRDesc]
    exact ⟨_, _, rfl, rfl, rfl, rfl, rfl⟩
  | some surface =>
    simp only [D3D9VR.GetBackBufferData, D3D9DeviceEx.GetBackBuffer, hb, D3D9VR.GetVRDesc]
    exact ⟨_, _, rfl, rfl, rfl, rfl, rfl⟩

/-- With a null holder `GetBackBufferData` does not return: it makes the
fetch, runs `GetVRDesc`, and then writes through the null pointer. -/
theorem GetBackBufferData_null (dev : D3D9DeviceEx) (lock : D3D9DeviceLock) (env : Env)
    (uninit : D3D9_TEXTURE_VR_DESC) :
    ∃ e rest,
      D3D9VR.GetBackBufferData { m_device := some dev, m_lock := lock } env none uninit
        = .error e ∧
      e.calls = env.calls ++ Call.GetBackBuffer 0 0 D3DBACKBUFFER_TYPE_MONO :: rest := by
  obtain ⟨rest, hrest, _⟩ := GetVRDesc_calls { m_device := some dev, m_lock := lock }
    (dev.GetBackBuffer env 0 0 D3DBACKBUFFER_TYPE_MONO).2.2
    (dev.GetBackBuffer env 0 0 D3DBACKBUFFER_TYPE_MONO).2.1 (some uninit)
  refine ⟨_, rest, rfl, ?_⟩
  rw [hrest]
  simp [D3D9DeviceEx.GetBackBuffer, Env.log]

/-- C12 (what the code does at a null holder): on the sample adapter
`GetBackBufferData` with a null output holder neither returns
`D3DERR_INVALIDCALL` nor returns at all; it ends in the write through the null
pointer, after the back-buffer fetch has been issued. -/
theorem GetBackBufferData_null_sample :
    sampleVR.GetBackBufferData sampleEnv none zeroDesc
      = .error { calls := [Call.GetBackBuffer 0 0 D3DBACKBUFFER_TYPE_MONO], nextHandle := 100 } :=
  rfl

/-- C13: `GetVRDesc` returns `D3DERR_INVALIDCALL` exactly when the surface
pointer or the output-descriptor pointer is null; then no call is made into
the emulation layer (no resolve) and the surface and the descriptor are as
before; in every other case it returns `D3D_OK`. -/
theorem GetVRDesc_invalid_iff (self : D3D9VR) (env : Env) (pSurface : Option D3D9Surface)
    (pDesc : Option D3D9_TEXTURE_VR_DESC) :
    ((self.GetVRDesc env pSurface pDesc).hr = D3DERR_INVALIDCALL ↔
      pSurface = none ∨ pDesc = none) ∧
    (pSurface = none ∨ pDesc = none →
      (self.GetVRDesc env pSurface pDesc).env = env ∧
      (self.GetVRDesc env pSurface pDesc).pDesc = pDesc ∧
      (self.GetVRDesc env pSurface pDesc).pSurface = pSurface) ∧
    (¬(pSurface = none ∨ pDesc = none) →
      (self.GetVRDesc env pSurface pDesc).hr = D3D_OK) := by
  cases pSurface with
  | none => cases pDesc <;> simp [D3D9VR.GetVRDesc]
  | some surface =>
    cases pDesc with
    | none => simp [D3D9VR.GetVRDesc]
    | some desc0 => simp [D3D9VR.GetVRDesc, D3D_OK, D3DERR_INVALIDCALL]

/-- C14: on an adapter with a device, `TransferSurface` returns
`D3DERR_INVALIDCALL` exactly when the surface pointer is null, for every value
of the wait flag; then no call is made into the emulation layer (no layout
transition, no wait) and the adapter with its device is as before, also on an
adapter without a device; in every other case it returns `D3D_OK`. -/
theorem TransferSurface_invalid_iff (dev : D3D9DeviceEx) (lock : D3D9DeviceLock) (env : Env)
    (pSurface : Option D3D9Surface) (waitResourceIdle : Int) :
    (∃ r, D3D9VR.TransferSurface { m_device := some dev, m_lock := lock } env pSurface
        waitResourceIdle = .ok r ∧
      (r.hr = D3DERR_INVALIDCALL ↔ pSurface = none) ∧
      (pSurface = none →
        r.env = env ∧ r.self = { m_device := some dev, m_lock := lock } ∧ r.pSurface = none) ∧
      (pSurface ≠ none → r.hr = D3D_OK)) ∧
    ∀ self : D3D9VR, self.TransferSurface env none waitResourceIdle
      = .ok { hr := D3DERR_INVALIDCALL, self := self, env := env, pSurface := none } := by
  refine ⟨?_, fun _ => rfl⟩
  cases pSurface with
  | none => exact ⟨_, rfl, by simp, fun _ => ⟨rfl, rfl, rfl⟩, by simp⟩
  | some surface =>
    by_cases hw : waitResourceIdle = 0
    · subst hw
      exact ⟨_, rfl, by simp [D3D_OK, D3DERR_INVALIDCALL], by simp, fun _ => rfl⟩
    · simp only [D3D9VR.TransferSurface, hw, ne_eq, not_false_eq_true, if_true]
      exact ⟨_, rfl, by simp [D3D_OK, D3DERR_INVALIDCALL], by simp, fun _ => rfl⟩

/-- C15: `Direct3DCreateVRImpl` returns `D3DERR_INVALIDCALL` exactly when the
output interface pointer is null, and then stores no adapter; otherwise it
returns `D3D_OK` and stores in `*pInterface` a new adapter on the device
pointer given, null or not, whose lock slot holds the empty token. -/
theorem Direct3DCreateVRImpl_spec (pDevice : Option D3D9DeviceEx)
    (pInterface : Option (Option D3D9VR)) :
    ((Direct3DCreateVRImpl pDevice pInterface).1 = D3DERR_INVALIDCALL ↔ pInterface = none) ∧
    (pInterface = none → (Direct3DCreateVRImpl pDevice pInterface).2 = none) ∧
    (∀ old, pInterface = some old →
      (Direct3DCreateVRImpl pDevice pInterface).1 = D3D_OK ∧
      (Direct3DCreateVRImpl pDevice pInterface).2
        = some (some { m_device := pDevice, m_lock := D3D9DeviceLock.empty })) := by
  cases pInterface with
  | none => simp [Direct3DCreateVRImpl]
  | some old => simp [Direct3DCreateVRImpl, D3D_OK, D3DERR_INVALIDCALL]

/-- The calls `TransferSurface` makes on a non-null surface: the layout
transition of the primary image over its whole range, from its recorded layout
to `VK_IMAGE_LAYOUT_TRANSFER_SRC_OPTIMAL`, and then, with a non-zero wait flag
only, the read-only wait on the primary image with the sequence number of
subresource 0. -/
theorem TransferSurface_calls (dev : D3D9DeviceEx) (lock : D3D9DeviceLock) (env : Env)
    (surface : D3D9Surface) (waitResourceIdle : Int) :
    ∃ r, D3D9VR.TransferSurface { m_device := some dev, m_lock := lock } env (some surface)
        waitResourceIdle = .ok r ∧
      r.env.calls = env.calls ++
        Call.TransformImage surface.GetCommonTexture.GetImage.handle
          { aspectMask := VK_IMAGE_ASPECT_COLOR_BIT
            baseMipLevel := 0
            levelCount := surface.GetCommonTexture.GetImage.info.mipLevels
            baseArrayLayer := 0
            layerCount := surface.GetCommonTexture.GetImage.info.numLayers }
          surface.GetCommonTexture.GetImage.info.layout VK_IMAGE_LAYOUT_TRANSFER_SRC_OPTIMAL ::
        (if waitResourceIdle ≠ 0 then
          [Call.WaitForResource surface.GetCommonTexture.GetImage.handle
            (surface.GetCommonTexture.GetMappingBufferSequenceNumber 0) D3DLOCK_READONLY]
        else []) := by
  by_cases hw : waitResourceIdle = 0
  · subst hw
    refine ⟨_, rfl, ?_⟩
    simp [D3D9DeviceEx.TransformImage, Env.log]
  · simp only [D3D9VR.TransferSurface, hw, ne_eq, not_false_eq_true, if_true]
    refine ⟨_, rfl, ?_⟩
    simp [D3D9DeviceEx.WaitForResource, D3D9DeviceEx.TransformImage, Env.log,
      D3D9CommonTexture.GetMappingBufferSequenceNumber, D3D9Surface.GetCommonTexture,
      D3D9CommonTexture.GetImage, VkImageSubresourceRange.coversAll]

/-- C16: on a non-null surface, multisampled or not, `TransferSurface` submits
one layout transition and no other: it is on the primary image of the surface,
its range is the colour aspect from mip level 0 over `mipLevels` levels and
from array layer 0 over `numLayers` layers, which is every mip level and array
layer of the image, and it goes from the recorded layout of the image to
`VK_IMAGE_LAYOUT_TRANSFER_SRC_OPTIMAL`. -/
theorem TransferSurface_transition (dev : D3D9DeviceEx) (lock : D3D9DeviceLock) (env : Env)
    (surface : D3D9Surface) (waitResourceIdle : Int) :
    ∃ r rest, D3D9VR.TransferSurface { m_device := some dev, m_lock := lock } env
        (some surface) waitResourceIdle = .ok r ∧
      r.env.calls = env.calls ++
        Call.TransformImage surface.GetCommonTexture.GetImage.handle
          { aspectMask := VK_IMAGE_ASPECT_COLOR_BIT
            baseMipLevel := 0
            levelCount := surface.GetCommonTexture.GetImage.info.mipLevels
            baseArrayLayer := 0
            layerCount := surface.GetCommonTexture.GetImage.info.numLayers }
          surface.GetCommonTexture.GetImage.info.layout VK_IMAGE_LAYOUT_TRANSFER_SRC_OPTIMAL ::
        rest ∧
      (∀ image subresources OldLayout NewLayout,
        Call.TransformImage image subresources OldLayout NewLayout ∉ rest) ∧
      VkImageSubresourceRange.coversAll
        { aspectMask := VK_IMAGE_ASPECT_COLOR_BIT
          baseMipLevel := 0
          levelCount := surface.GetCommonTexture.GetImage.info.mipLevels
          baseArrayLayer := 0
          layerCount := surface.GetCommonTexture.GetImage.info.numLayers }
        surface.GetCommonTexture.GetImage.info = true := by
  obtain ⟨r, hr, hcalls⟩ := TransferSurface_calls dev lock env surface waitResourceIdle
  refine ⟨r, _, hr, hcalls, ?_, ?_⟩
  · intro image subresources OldLayout NewLayout hmem
    by_cases hw : waitResourceIdle = 0
    · simp [hw] at hmem
    · simp [hw] at hmem
  · simp [VkImageSubresourceRange.coversAll]

/-- C17: on a non-null surface, `TransferSurface` waits for a resource exactly
when the wait flag is non-zero.  Then it waits once, after the layout
transition, on the primary image, with the sequence number of subresource 0
and the flag `D3DLOCK_READONLY`; with a zero flag it makes no wait at all. -/
theorem TransferSurface_wait_iff (dev : D3D9DeviceEx) (lock : D3D9DeviceLock) (env : Env)
    (surface : D3D9Surface) (waitResourceIdle : Int) :
    ∃ r transition, D3D9VR.TransferSurface { m_device := some dev, m_lock := lock } env
        (some surface) waitResourceIdle = .ok r ∧
      (∃ image subresources OldLayout NewLayout,
        transition = Call.TransformImage image subresources OldLayout NewLayout) ∧
      (waitResourceIdle ≠ 0 →
        r.env.calls = env.calls ++
          [transition,
            Call.WaitForResource surface.GetCommonTexture.GetImage.handle
              (surface.GetCommonTexture.GetMappingBufferSequenceNumber 0) D3DLOCK_READONLY]) ∧
      (waitResourceIdle = 0 → r.env.calls = env.calls ++ [transition]) ∧
      ((∃ image SequenceNumber MapFlags,
          Call.WaitForResource image SequenceNumber MapFlags ∈ r.env.calls.drop env.calls.length)
        ↔ waitResourceIdle ≠ 0) := by
  obtain ⟨r, hr, hcalls⟩ := TransferSurface_calls dev lock env surface waitResourceIdle
  refine ⟨r,
    Call.TransformImage surface.GetCommonTexture.GetImage.handle
      { aspectMask := VK_IMAGE_ASPECT_COLOR_BIT
        baseMipLevel := 0
        levelCount := surface.GetCommonTexture.GetImage.info.mipLevels
        baseArrayLayer := 0
        layerCount := surface.GetCommonTexture.GetImage.info.numLayers }
      surface.GetCommonTexture.GetImage.info.layout VK_IMAGE_LAYOUT_TRANSFER_SRC_OPTIMAL,
    hr, ⟨_, _, _, _, rfl⟩, ?_, ?_, ?_⟩
  · intro hw
    rw [hcalls]
    simp [hw]
  · intro hw
    rw [hcalls]
    simp [hw]
  · rw [hcalls]
    by_cases hw : waitResourceIdle = 0
    · simp [hw]
    · simp [hw]

/-! ## The lock slot is not a counter -/

/-- Any number of `LockDevice` calls followed by one `UnlockDevice` leaves the
adapter on its device with the empty token in the lock slot. -/
theorem run_locks_unlock (dev : D3D9DeviceEx) (n : Nat) :
    ∀ (lock : D3D9DeviceLock) (env : Env), ∃ env1,
      D3D9VR.run { m_device := some dev, m_lock := lock } env
        (List.replicate n Op.LockDevice ++ [Op.UnlockDevice])
      = .ok ({ m_device := some dev, m_lock := D3D9DeviceLock.empty }, env1) := by
  induction n with
  | zero => intro lock env; exact ⟨env, rfl⟩
  | succ n ih =>
    intro lock env
    obtain ⟨env1, h⟩ := ih (dev.LockDevice env).1 (dev.LockDevice env).2
    exact ⟨env1, h⟩

/-- C18: the lock slot holds one token at most and does not count.
`UnlockDevice` on an adapter whose slot holds the empty token returns `D3D_OK`
and changes nothing, and for every `n`, `n + 1` consecutive `LockDevice` calls
followed by one `UnlockDevice` leave the empty token in the slot and the
adapter in the state one `LockDevice` followed by one `UnlockDevice` leaves it
in. -/
theorem lock_slot_not_counter (dev : D3D9DeviceEx) (lock : D3D9DeviceLock) (env : Env)
    (n : Nat) :
    (∀ self : D3D9VR, self.m_lock = D3D9DeviceLock.empty →
      self.UnlockDevice env = { hr := D3D_OK, self := self, env := env }) ∧
    ∃ s s1,
      D3D9VR.run { m_device := some dev, m_lock := lock } env
        (List.replicate (n + 1) Op.LockDevice ++ [Op.UnlockDevice]) = .ok s ∧
      D3D9VR.run { m_device := some dev, m_lock := lock } env
        [Op.LockDevice, Op.UnlockDevice] = .ok s1 ∧
      s.1.m_lock = D3D9DeviceLock.empty ∧
      s1.1.m_lock = D3D9DeviceLock.empty ∧
      s.1 = s1.1 := by
  constructor
  · intro self hself
    cases self with
    | mk d l =>
      simp only at hself
      subst hself
      rfl
  · obtain ⟨env1, h⟩ := run_locks_unlock dev (n + 1) lock env
    exact ⟨_, _, h, rfl, rfl, rfl, rfl⟩

/-! ## Bit helpers -/

/-- The index `bitNum & (BITS_PER_INT - 1)` is `bitNum` modulo 32. -/
theorem and32_mask (bitNum : Int) : and32 bitNum (BITS_PER_INT - 1) = bitNum % 32 := by
  have h31 : bits32 (BITS_PER_INT - 1) = 2 ^ 5 - 1 := by decide
  unfold and32
  rw [h31, Nat.and_pow_two_sub_one_eq_mod]
  unfold int32 bits32
  omega

/-- Entry `i` of the table is `1 << i`. -/
theorem bitsForBitnum_get (i : Nat) (hi : i < 32) :
    bitsForBitnum[i]? = some (shl32 1 i) ∧ bits32 (shl32 1 i) = 2 ^ i := by
  interval_cases i <;> exact ⟨rfl, by decide⟩

/-- C19: for every `int` value `bitNum`, negative ones included, the index
`bitNum & 31` is `bitNum` modulo 32 and lies within the 32 entries of the
table, the table lookup `GetBitForBitnum(bitNum)` is the shift form
`BitVec_Bit(bitNum)` computed modulo `2 ^ 32`, and the result has exactly one
bit set, the one at position `bitNum` modulo 32. -/
theorem GetBitForBitnum_eq_BitVec_Bit (bitNum : Int) :
    0 ≤ and32 bitNum (BITS_PER_INT - 1) ∧
    (and32 bitNum (BITS_PER_INT - 1)).toNat < bitsForBitnum.length ∧
    bitsForBitnum.length = 32 ∧
    and32 bitNum (BITS_PER_INT - 1) = bitNum % 32 ∧
    GetBitForBitnum bitNum = some (BitVec_Bit bitNum) ∧
    bits32 (BitVec_Bit bitNum) = 2 ^ (bitNum % 32).toNat ∧
    ∀ j, (bits32 (BitVec_Bit bitNum)).testBit j = true ↔ j = (bitNum % 32).toNat := by
  have hmask := and32_mask bitNum
  have hnonneg : 0 ≤ bitNum % 32 := Int.emod_nonneg _ (by decide)
  have hlt : (bitNum % 32).toNat < 32 := by omega
  have hcast : ((bitNum % 32).toNat : Int) = bitNum % 32 := Int.toNat_of_nonneg hnonneg
  obtain ⟨hget, hbits⟩ := bitsForBitnum_get (bitNum % 32).toNat hlt
  rw [hcast] at hget hbits
  have hpat : bits32 (BitVec_Bit bitNum) = 2 ^ (bitNum % 32).toNat := by
    unfold BitVec_Bit
    rw [hmask]
    exact hbits
  refine ⟨by rw [hmask]; exact hnonneg, by rw [hmask]; exact hlt, rfl, hmask, ?_, hpat, ?_⟩
  · unfold GetBitForBitnum BitVec_Bit
    rw [hmask, if_pos hnonneg]
    exact hget
  · intro j
    rw [hpat, Nat.testBit_two_pow, decide_eq_true_iff]
    exact eq_comm

end L4D2VR
